import Mathlib

/-!
Entries component of the calorie tracker frontend

A shallow embedding of `frontend/src/components/entries.components.js`.

The component is a React function component.  Its seven `useState` cells form
the record `State`.  Every statement of a handler that has an effect (a state
setter call, an in-place assignment to a state object, an axios call) is an
`Action`; a handler is the list of actions it performs, computed from the state
it closes over, and `execAll` executes that list in order; the list itself is
the ordered log of what was done.  The `.then` callback of each axios call is a
separate function of the response, applied when the promise is fulfilled; there
is no `.catch` anywhere, so a rejected promise runs no code of the component.
-/

namespace Entries

/-! JavaScript values -/

/-- A JavaScript number as far as this component needs it.  `fin q` stands for
the double nearest to the rational `q`; the IEEE rounding itself is not
modelled. -/
inductive JSNum where
  | nan
  | posInf
  | negInf
  | fin (q : ℚ)
  deriving DecidableEq

/-- A primitive value held in a field of the draft or sent in a request:
a number or a string. -/
inductive JSVal where
  | num (x : JSNum)
  | str (s : String)
  deriving DecidableEq

/-- The JavaScript number `0`, the initial value of `calories`, `fat` and of
the `id` of both edit targets. -/
def zero : JSVal := .num (.fin 0)

/-- An entry identifier as it is concatenated into a URL: the number literal
`0` of the initial state and of the cancel handlers is a natural number, an
identifier handed up by a row may be a number or a string. -/
inductive Ident where
  | nat (n : Nat)
  | text (s : String)
  deriving DecidableEq

/-- String conversion performed by `"..." + id`. -/
def Ident.toStr : Ident → String
  | .nat n => Nat.repr n
  | .text s => s

/-- An object literal: its fields in source order. -/
abbrev Obj := List (String × JSVal)

/-! parseFloat -/

/-- Code points that `parseFloat` skips at the start of its argument
(ECMAScript WhiteSpace and LineTerminator). -/
def isStrWhiteSpace (c : Char) : Bool :=
  let n := c.toNat
  n == 0x09 || n == 0x0A || n == 0x0B || n == 0x0C || n == 0x0D || n == 0x20 ||
  n == 0xA0 || n == 0x1680 || (0x2000 ≤ n && n ≤ 0x200A) || n == 0x2028 ||
  n == 0x2029 || n == 0x202F || n == 0x205F || n == 0x3000 || n == 0xFEFF

/-- Decimal digit test. -/
def isDecDigit (c : Char) : Bool := '0' ≤ c && c ≤ '9'

/-- Value of a run of decimal digits, most significant first. -/
def digitsVal (ds : List Char) : Nat :=
  ds.foldl (fun acc c => 10 * acc + (c.toNat - '0'.toNat)) 0

/-- Optional sign of a StrDecimalLiteral: whether it is negative, and the rest. -/
def takeSign : List Char → Bool × List Char
  | '-' :: r => (true, r)
  | '+' :: r => (false, r)
  | cs => (false, cs)

/-- Whether `p` is an initial segment of `cs`. -/
def startsWith (p : List Char) : List Char → Bool :=
  fun cs => cs.take p.length == p

/-- The fraction digits after the integer digits: `.` followed by a possibly
empty run of digits, or nothing. -/
def takeFraction : List Char → List Char × List Char
  | '.' :: r => (r.takeWhile isDecDigit, r.dropWhile isDecDigit)
  | cs => ([], cs)

/-- The value of an ExponentPart at the head of the input, `0` when there is
none: `e` or `E`, an optional sign, and at least one digit. -/
def takeExponent : List Char → Int
  | c :: r =>
    if c == 'e' || c == 'E' then
      let (neg, r1) := takeSign r
      let ds := r1.takeWhile isDecDigit
      if ds.isEmpty then 0
      else if neg then - (digitsVal ds : Int) else (digitsVal ds : Int)
    else 0
  | [] => 0

/-- The builtin `parseFloat` on a string: skip leading white space, take the
longest initial segment that is a StrDecimalLiteral, and return its
mathematical value; `NaN` when no initial segment is one.  The sign of zero is
not kept. -/
def parseFloatStr (s : String) : JSNum :=
  let cs := s.toList.dropWhile isStrWhiteSpace
  let (neg, r0) := takeSign cs
  if startsWith "Infinity".toList r0 then (if neg then .negInf else .posInf)
  else
    let ip := r0.takeWhile isDecDigit
    let r1 := r0.dropWhile isDecDigit
    let (fp, r2) := takeFraction r1
    if ip.isEmpty && fp.isEmpty then .nan
    else
      let m : ℚ := (digitsVal (ip ++ fp) : ℚ)
      let e : Int := takeExponent r2 - (fp.length : Int)
      .fin ((if neg then -m else m) * (10 : ℚ) ^ e)

/-- The builtin `parseFloat` on a value: the argument is first converted to a
string.  A number converts to the shortest text that reads back as itself, so
on a number the result is that number. -/
def parseFloat : JSVal → JSNum
  | .num x => x
  | .str s => parseFloatStr s

/-! State of the component -/

/-- One element of the entry collection, as returned by the list request. -/
structure Entry where
  id : Ident
  dish : String
  ingredients : String
  calories : JSNum
  fat : JSNum
  deriving DecidableEq

/-- The value of `changeEntry` and of `changeIngredient`: whether the modal is
shown and which entry it is about. -/
structure Target where
  change : Bool
  id : Ident
  deriving DecidableEq

/-- The object held by `newEntry`, shared by the add modal and the change-entry
modal.  `dish` and `ingredients` only ever hold strings; `calories` and `fat`
start as the number `0` and hold a string once typed into. -/
structure Draft where
  dish : String
  ingredients : String
  calories : JSVal
  fat : JSVal
  deriving DecidableEq

/-- The initial value of `newEntry` (line 14). -/
def Draft.empty : Draft :=
  { dish := "", ingredients := "", calories := zero, fat := zero }

/-- The draft object as a request body: its four fields in the order of the
object literal of line 14, values as they stand. -/
def Draft.toObj (d : Draft) : Obj :=
  [("dish", .str d.dish), ("ingredients", .str d.ingredients),
   ("calories", d.calories), ("fat", d.fat)]

/-- The seven `useState` cells of `Entries` (lines 8 to 14).  `entries` is
`none` when the list response carried `null`. -/
structure State where
  entries : Option (List Entry)
  refreshData : Bool
  changeEntry : Target
  changeIngredient : Target
  newIngredientName : String
  addNewEntry : Bool
  newEntry : Draft
  deriving DecidableEq

/-- The state at mount: the initial values passed to `useState`. -/
def State.initial : State :=
  { entries := some []
    refreshData := false
    changeEntry := { change := false, id := .nat 0 }
    changeIngredient := { change := false, id := .nat 0 }
    newIngredientName := ""
    addNewEntry := false
    newEntry := Draft.empty }

/-! Requests, responses and actions -/

/-- An axios call: the method, the URL, and the second argument (the data of a
POST or PUT, the config of a GET or DELETE). -/
inductive Request where
  | get (url : String) (config : Obj)
  | post (url : String) (data : Obj)
  | put (url : String) (data : Obj)
  | delete (url : String) (config : Obj)
  deriving DecidableEq

/-- The response object handed to a `.then` callback. -/
structure Response where
  status : Nat
  data : Option (List Entry)
  deriving DecidableEq

/-- How the promise of an axios call settles.  No call has a `.catch`, so a
rejection (transport failure, or a status that axios rejects) runs nothing. -/
inductive Outcome where
  | fulfilled (response : Response)
  | rejected
  deriving DecidableEq

/-- A statement with an effect. -/
inductive Action where
  | setEntries (d : Option (List Entry))
  | setRefreshData (b : Bool)
  | setChangeEntry (t : Target)
  | setChangeIngredient (t : Target)
  | setNewIngredientName (v : String)
  | setAddNewEntry (b : Bool)
  | assignDish (v : String)
  | assignIngredients (v : String)
  | assignCalories (v : String)
  | assignFat (v : String)
  | assignChangeEntryChange (b : Bool)
  | assignChangeIngredientChange (b : Bool)
  | consoleLog (n : Nat)
  | request (r : Request)
  deriving DecidableEq

/-- Effect of one action on the state.  Issuing a request and logging leave the
state alone. -/
def exec (a : Action) (s : State) : State :=
  match a with
  | .setEntries d => { s with entries := d }
  | .setRefreshData b => { s with refreshData := b }
  | .setChangeEntry t => { s with changeEntry := t }
  | .setChangeIngredient t => { s with changeIngredient := t }
  | .setNewIngredientName v => { s with newIngredientName := v }
  | .setAddNewEntry b => { s with addNewEntry := b }
  | .assignDish v => { s with newEntry := { s.newEntry with dish := v } }
  | .assignIngredients v => { s with newEntry := { s.newEntry with ingredients := v } }
  | .assignCalories v => { s with newEntry := { s.newEntry with calories := .str v } }
  | .assignFat v => { s with newEntry := { s.newEntry with fat := .str v } }
  | .assignChangeEntryChange b => { s with changeEntry := { s.changeEntry with change := b } }
  | .assignChangeIngredientChange b =>
    { s with changeIngredient := { s.changeIngredient with change := b } }
  | .consoleLog _ => s
  | .request _ => s

/-- State after performing a list of actions in order. -/
def execAll (as : List Action) (s : State) : State :=
  as.foldl (fun st a => exec a st) s

/-- The requests among a list of actions, in order. -/
def requestsOf (as : List Action) : List Request :=
  as.filterMap (fun a => match a with | .request r => some r | _ => none)

/-! The functions of the component -/

/-- Lines 158 to 161: the call made by `getAllEntries`. -/
def getAllEntries (_ : State) : List Action :=
  [.request (.get "http://localhost:8000/entries" [("reponseType", .str "json")])]

/-- Lines 162 to 166: the `.then` callback of `getAllEntries`. -/
def getAllEntries_then (response : Response) : List Action :=
  if response.status = 200 then [.setEntries response.data] else []

/-- Lines 104 to 111: `changeIngredientForEntry` up to the axios call. -/
def changeIngredientForEntry (s : State) : List Action :=
  [.assignChangeIngredientChange false,
   .request (.put ("http://localhost:8000/ingredient/update/" ++ s.changeIngredient.id.toStr)
      [("ingredients", .str s.newIngredientName)])]

/-- Lines 112 to 118: the `.then` callback of `changeIngredientForEntry`. -/
def changeIngredientForEntry_then (response : Response) : List Action :=
  .consoleLog response.status ::
    (if response.status = 200 then [.setRefreshData true] else [])

/-- Lines 121 to 124: `changeSingleEntry` up to the axios call. -/
def changeSingleEntry (s : State) : List Action :=
  [.assignChangeEntryChange false,
   .request (.put ("http://localhost:8000/entry/update/" ++ s.changeEntry.id.toStr)
      s.newEntry.toObj)]

/-- Lines 125 to 129: the `.then` callback of `changeSingleEntry`. -/
def changeSingleEntry_then (response : Response) : List Action :=
  if response.status = 200 then [.setRefreshData true] else []

/-- Lines 132 to 139: `addSingleEntry` up to the axios call. -/
def addSingleEntry (s : State) : List Action :=
  [.setAddNewEntry false,
   .request (.post "http://localhost:8000/entry/create"
      [("ingredients", .str s.newEntry.ingredients),
       ("dish", .str s.newEntry.dish),
       ("calories", s.newEntry.calories),
       ("fat", .num (parseFloat s.newEntry.fat))])]

/-- Lines 140 to 144: the `.then` callback of `addSingleEntry`. -/
def addSingleEntry_then (response : Response) : List Action :=
  if response.status = 200 then [.setRefreshData true] else []

/-- Lines 147 to 150: `deleteSingleEntry` up to the axios call. -/
def deleteSingleEntry (id : Ident) (_ : State) : List Action :=
  [.request (.delete ("http://localhost:8000/entry/delete/" ++ id.toStr) [])]

/-- Lines 151 to 155: the `.then` callback of `deleteSingleEntry`. -/
def deleteSingleEntry_then (response : Response) : List Action :=
  if response.status = 200 then [.setRefreshData true] else []

/-- Lines 18 to 20: the effect run once after the first commit. -/
def mountEffect (s : State) : List Action := getAllEntries s

/-- Lines 22 to 26: the statements of one execution of the component body. -/
def renderBody (s : State) : List Action :=
  if s.refreshData then .setRefreshData false :: getAllEntries s else []

/-! Operations and their settlement -/

/-- The five functions that issue a request. -/
inductive Op where
  | getAllEntries
  | addSingleEntry
  | changeSingleEntry
  | changeIngredientForEntry
  | deleteSingleEntry (id : Ident)
  deriving DecidableEq

/-- The four operations that change data on the server. -/
def Op.isMutating : Op → Bool
  | .getAllEntries => false
  | _ => true

/-- The synchronous part of an operation, called in state `s`. -/
def Op.issue : Op → State → List Action
  | .getAllEntries => Entries.getAllEntries
  | .addSingleEntry => Entries.addSingleEntry
  | .changeSingleEntry => Entries.changeSingleEntry
  | .changeIngredientForEntry => Entries.changeIngredientForEntry
  | .deleteSingleEntry id => Entries.deleteSingleEntry id

/-- The `.then` callback of an operation. -/
def Op.onFulfilled : Op → Response → List Action
  | .getAllEntries => getAllEntries_then
  | .addSingleEntry => addSingleEntry_then
  | .changeSingleEntry => changeSingleEntry_then
  | .changeIngredientForEntry => changeIngredientForEntry_then
  | .deleteSingleEntry _ => deleteSingleEntry_then

/-- What runs when the promise of an operation settles. -/
def Op.settle (op : Op) : Outcome → List Action
  | .fulfilled response => op.onFulfilled response
  | .rejected => []

/-- State after an operation is called in `s` and its promise settles with `o`. -/
def perform (op : Op) (o : Outcome) (s : State) : State :=
  execAll (op.settle o) (execAll (op.issue s) s)

/-! Events -/

/-- Everything that can run code of the component: the mount effect, an
execution of the body, the handlers wired in the JSX of lines 29 to 100, the
three callbacks handed to each row, and the settlement of a request. -/
inductive Event where
  | mount
  | render
  | clickTrack
  | hideAdd
  | cancelAdd
  | clickAdd
  | typeDish (v : String)
  | typeIngredients (v : String)
  | typeCalories (v : String)
  | typeFat (v : String)
  | hideChangeIngredient
  | cancelChangeIngredient
  | typeNewIngredient (v : String)
  | clickChangeIngredient
  | hideChangeEntry
  | cancelChangeEntry
  | clickChangeEntry
  | rowDelete (id : Ident)
  | rowSetChangeIngredient (t : Target)
  | rowSetChangeEntry (t : Target)
  | settled (op : Op) (o : Outcome)
  deriving DecidableEq

/-- The actions an event performs in state `s`. -/
def handle (e : Event) (s : State) : List Action :=
  match e with
  | .mount => mountEffect s
  | .render => renderBody s
  | .clickTrack => [.setAddNewEntry true]
  | .hideAdd => [.setAddNewEntry false]
  | .cancelAdd => [.setAddNewEntry false]
  | .clickAdd => addSingleEntry s
  | .typeDish v => [.assignDish v]
  | .typeIngredients v => [.assignIngredients v]
  | .typeCalories v => [.assignCalories v]
  | .typeFat v => [.assignFat v]
  | .hideChangeIngredient => [.setChangeIngredient { change := false, id := .nat 0 }]
  | .cancelChangeIngredient => [.setChangeIngredient { change := false, id := .nat 0 }]
  | .typeNewIngredient v => [.setNewIngredientName v]
  | .clickChangeIngredient => changeIngredientForEntry s
  | .hideChangeEntry => [.setChangeEntry { change := false, id := .nat 0 }]
  | .cancelChangeEntry => [.setChangeEntry { change := false, id := .nat 0 }]
  | .clickChangeEntry => changeSingleEntry s
  | .rowDelete id => deleteSingleEntry id s
  | .rowSetChangeIngredient t => [.setChangeIngredient t]
  | .rowSetChangeEntry t => [.setChangeEntry t]
  | .settled op o => op.settle o

/-- One step: the state after the event. -/
def step (s : State) (e : Event) : State := execAll (handle e s) s

/-- The state after a sequence of events. -/
def stepAll (s : State) (es : List Event) : State := es.foldl step s

/-- The log of a sequence of events: all actions performed, in order. -/
def logAll : State → List Event → List Action
  | _, [] => []
  | s, e :: es => handle e s ++ logAll (step s e) es

/-- Whether a request is the list request. -/
def Request.isGet : Request → Bool
  | .get _ _ => true
  | _ => false

/-- Number of list requests issued during a sequence of events. -/
def fetchCount (s : State) (es : List Event) : Nat :=
  ((requestsOf (logAll s es)).filter Request.isGet).length

/-- Whether an event is the fulfilment of a mutating operation with status 200. -/
def Event.isMutationSuccess : Event → Bool
  | .settled op (.fulfilled response) => op.isMutating && response.status == 200
  | _ => false

/-- Whether an event is the mount effect. -/
def Event.isMount : Event → Bool
  | .mount => true
  | _ => false

/-- The value of a field of an object literal. -/
def Obj.field (o : Obj) (k : String) : Option JSVal :=
  (o.find? (fun p => p.1 == k)).map Prod.snd

/-- The refresh flag as a number: `1` when a refresh is owed, `0` otherwise. -/
def flagCount (s : State) : Nat := if s.refreshData then 1 else 0

/-- Number of list requests among a list of actions. -/
def fetchesIn (as : List Action) : Nat :=
  ((requestsOf as).filter Request.isGet).length

/-! The number input

The fat field of both modals is an input of type number (lines 56 and 94).
The value such a control hands to its `onChange` handler is the text typed when
that text is a valid floating-point number, and the empty string otherwise. -/

/-- The input without a leading minus sign. -/
def dropMinus : List Char → List Char
  | '-' :: r => r
  | cs => cs

/-- The rest of a valid floating-point number after its digits: nothing, or
`e` or `E`, an optional sign, and one or more digits up to the end. -/
def isExponentOrEnd : List Char → Bool
  | [] => true
  | c :: r =>
    (c == 'e' || c == 'E') &&
      (let ds := (takeSign r).2
       !ds.isEmpty && ds.all isDecDigit)

/-- A valid floating-point number without its sign: digits, or a dot followed
by digits, or both, then an optional exponent, and nothing else. -/
def isValidUnsigned (r0 : List Char) : Bool :=
  match r0.dropWhile isDecDigit with
  | '.' :: r =>
    !(r.takeWhile isDecDigit).isEmpty && isExponentOrEnd (r.dropWhile isDecDigit)
  | r2 => !(r0.takeWhile isDecDigit).isEmpty && isExponentOrEnd r2

/-- The typed text is numeric: it is a valid floating-point number, that is an
optional minus sign followed by a valid unsigned number. -/
def isValidFloatingPointNumber (raw : String) : Bool :=
  isValidUnsigned (dropMinus raw.toList)

/-- The `event.target.value` of a number input in which `raw` has been typed. -/
def numberInputValue (raw : String) : String :=
  if isValidFloatingPointNumber raw then raw else ""

/-- The input begins with a digit or with a dot followed by a digit. -/
def startsWithNumber : List Char → Bool
  | c :: d :: _ => isDecDigit c || (c == '.' && isDecDigit d)
  | [c] => isDecDigit c
  | [] => false

/-- The text begins with a number: after white space and an optional sign
comes a decimal digit, a dot followed by a decimal digit, or `Infinity`. -/
def startsNumeric (t : String) : Bool :=
  let r := (takeSign (t.toList.dropWhile isStrWhiteSpace)).2
  startsWith "Infinity".toList r || startsWithNumber r

/-! Auxiliary lemmas -/

theorem fetchesIn_append (as bs : List Action) :
    fetchesIn (as ++ bs) = fetchesIn as + fetchesIn bs := by
  simp [fetchesIn, requestsOf, List.filterMap_append]

theorem fetchCount_cons (s : State) (e : Event) (es : List Event) :
    fetchCount s (e :: es) = fetchesIn (handle e s) + fetchCount (step s e) es := by
  simp [fetchCount, logAll, requestsOf, List.filterMap_append, fetchesIn]

/-- One event issues at most as many list requests as it is a mount or a
successful mutation, counting the flag it leaves set against it and the flag it
found set for it. -/
theorem step_budget (s : State) (e : Event) :
    fetchesIn (handle e s) + flagCount (step s e) ≤
      (if e.isMount then 1 else 0) + (if e.isMutationSuccess then 1 else 0) + flagCount s := by
  cases e with
  | settled op o =>
    cases o with
    | rejected => simp [handle, step, Op.settle, execAll, fetchesIn, requestsOf]
    | fulfilled r =>
      by_cases h : r.status = 200 <;> cases op <;>
        simp [handle, step, Op.settle, Op.onFulfilled, getAllEntries_then, addSingleEntry_then,
          changeSingleEntry_then, changeIngredientForEntry_then, deleteSingleEntry_then,
          execAll, exec, fetchesIn, requestsOf, flagCount, Event.isMount,
          Event.isMutationSuccess, Op.isMutating, Request.isGet, h]
  | render =>
    by_cases h : s.refreshData = true <;>
      simp [handle, step, renderBody, getAllEntries, execAll, exec, fetchesIn, requestsOf,
        flagCount, Event.isMount, Event.isMutationSuccess, Request.isGet, h]
  | _ =>
    simp [handle, step, mountEffect, getAllEntries, addSingleEntry, changeSingleEntry,
      changeIngredientForEntry, deleteSingleEntry, execAll, exec, fetchesIn, requestsOf,
      flagCount, Event.isMount, Event.isMutationSuccess, Request.isGet]

theorem fetch_budget (es : List Event) (s : State) :
    fetchCount s es + flagCount (stepAll s es) ≤
      (es.filter Event.isMount).length + (es.filter Event.isMutationSuccess).length
        + flagCount s := by
  induction es generalizing s with
  | nil => simp [fetchCount, logAll, stepAll, requestsOf]
  | cons e es ih =>
    have h1 := step_budget s e
    have h2 := ih (step s e)
    have h4 : stepAll s (e :: es) = stepAll (step s e) es := rfl
    have h5 : ∀ p : Event → Bool,
        (List.filter p (e :: es)).length = (if p e then 1 else 0) + (es.filter p).length := by
      intro p
      cases hp : p e <;> simp [List.filter_cons, hp, Nat.add_comm]
    rw [fetchCount_cons, h4, h5, h5]
    omega

/-- With the flag clear, executions of the body do nothing at all. -/
theorem render_idle (n : Nat) (s : State) (h : s.refreshData = false) :
    fetchCount s (List.replicate n .render) = 0 ∧
      stepAll s (List.replicate n .render) = s := by
  have hstep : step s .render = s := by simp [step, handle, renderBody, h, execAll]
  have hlog : handle .render s = [] := by simp [handle, renderBody, h]
  induction n with
  | zero => simp [fetchCount, logAll, stepAll, requestsOf]
  | succ n ih =>
    rw [List.replicate_succ, fetchCount_cons, hlog, hstep]
    refine ⟨by simpa [fetchesIn, requestsOf] using ih.1, ?_⟩
    show stepAll (step s .render) (List.replicate n .render) = s
    rw [hstep]; exact ih.2

/-- With the flag set, any positive number of executions of the body issues one
list request and ends with the flag clear. -/
theorem render_once (n : Nat) (s : State) (h : s.refreshData = true) :
    fetchCount s (List.replicate (n + 1) .render) = 1 ∧
      (stepAll s (List.replicate (n + 1) .render)).refreshData = false := by
  have hclr : (step s .render).refreshData = false := by
    simp [step, handle, renderBody, getAllEntries, h, execAll, exec]
  have hidle := render_idle n (step s .render) hclr
  have hone : fetchesIn (handle .render s) = 1 := by
    simp [handle, renderBody, getAllEntries, h, fetchesIn, requestsOf, Request.isGet]
  rw [List.replicate_succ, fetchCount_cons, hone, hidle.1]
  refine ⟨rfl, ?_⟩
  show (stepAll (step s .render) (List.replicate n .render)).refreshData = false
  rw [hidle.2]; exact hclr

/-- The result of `parseFloatStr` is `NaN` exactly when the text does not begin
with a number. -/
theorem parseFloatStr_nan_iff (t : String) :
    parseFloatStr t = .nan ↔ startsNumeric t = false := by
  have hdot : isDecDigit '.' = false := by decide
  unfold parseFloatStr startsNumeric
  simp only []
  generalize t.toList.dropWhile isStrWhiteSpace = cs
  generalize takeSign cs = p
  obtain ⟨neg, r⟩ := p
  simp only []
  by_cases hinf : startsWith "Infinity".toList r = true
  · simp only [hinf, if_true, Bool.true_or]
    cases neg <;> simp
  · simp only [hinf, Bool.false_or]
    match r with
    | [] => simp [takeFraction, startsWithNumber]
    | [c] =>
      by_cases hc : isDecDigit c = true
      · simp [List.takeWhile, startsWithNumber, hc]
      · by_cases hd : c = '.'
        · subst hd; simp [List.takeWhile, List.dropWhile, takeFraction, startsWithNumber, hdot]
        · simp [List.takeWhile, List.dropWhile, takeFraction, startsWithNumber, hc, hd]
    | c :: d :: r' =>
      by_cases hc : isDecDigit c = true
      · simp [List.takeWhile, startsWithNumber, hc]
      · by_cases hd : c = '.'
        · subst hd
          by_cases hdd : isDecDigit d = true
          · simp [List.takeWhile, List.dropWhile, takeFraction, startsWithNumber, hdd, hdot]
          · simp [List.takeWhile, List.dropWhile, takeFraction, startsWithNumber, hdd, hdot]
        · simp [List.takeWhile, List.dropWhile, takeFraction, startsWithNumber, hc, hd]

theorem digit_not_space (c : Char) (h : isDecDigit c = true) : isStrWhiteSpace c = false := by
  have h1 : 48 ≤ c.toNat ∧ c.toNat ≤ 57 := by
    simp only [isDecDigit, Bool.and_eq_true, decide_eq_true_eq] at h
    exact h
  simp only [isStrWhiteSpace]
  simp
  omega

theorem takeSign_other (c : Char) (r : List Char) (h1 : c ≠ '-') (h2 : c ≠ '+') :
    takeSign (c :: r) = (false, c :: r) := by
  unfold takeSign
  split <;> simp_all

theorem isValidUnsigned_startsWithNumber (r0 : List Char) (h : isValidUnsigned r0 = true) :
    startsWithNumber r0 = true := by
  have hdot : isDecDigit '.' = false := by decide
  unfold isValidUnsigned at h
  match r0 with
  | [] => simp at h
  | [c] =>
    by_cases hc : isDecDigit c = true
    · simp [startsWithNumber, hc]
    · by_cases hd : c = '.'
      · subst hd; simp [List.dropWhile, List.takeWhile, hdot] at h
      · exfalso
        simp [List.dropWhile, List.takeWhile, hc] at h
        split at h
        · simp_all
        · simp at h
  | c :: d :: r =>
    by_cases hc : isDecDigit c = true
    · simp [startsWithNumber, hc]
    · by_cases hd : c = '.'
      · subst hd
        by_cases hdd : isDecDigit d = true
        · simp [startsWithNumber, hdd]
        · simp [List.dropWhile, List.takeWhile, hdot, hdd] at h
      · exfalso
        simp [List.dropWhile, List.takeWhile, hc] at h
        split at h
        · simp_all
        · simp at h

theorem startsWithNumber_head (c : Char) (r : List Char)
    (h : startsWithNumber (c :: r) = true) : isDecDigit c = true ∨ c = '.' := by
  match r with
  | [] => left; simpa [startsWithNumber] using h
  | d :: r' =>
    simp [startsWithNumber] at h
    rcases h with h | h
    · exact Or.inl h
    · exact Or.inr h.1

theorem startsWithNumber_after_sign (cs : List Char)
    (h : startsWithNumber (dropMinus cs) = true) :
    startsWithNumber (takeSign (cs.dropWhile isStrWhiteSpace)).2 = true := by
  match cs with
  | [] => simp [dropMinus, startsWithNumber] at h
  | c :: r =>
    by_cases hm : c = '-'
    · subst hm
      have hws : isStrWhiteSpace '-' = false := by decide
      simpa [dropMinus, List.dropWhile, hws, takeSign] using h
    · have hdm : dropMinus (c :: r) = c :: r := by
        unfold dropMinus; split <;> simp_all
      rw [hdm] at h
      have hp : c ≠ '+' := by
        rintro rfl
        rcases startsWithNumber_head _ _ h with h1 | h1
        · exact absurd h1 (by decide)
        · exact absurd h1 (by decide)
      have hws : isStrWhiteSpace c = false := by
        rcases startsWithNumber_head _ _ h with h1 | h1
        · exact digit_not_space c h1
        · subst h1; decide
      simp only [List.dropWhile, hws, takeSign_other c r hm hp]
      exact h

/-- The value a number input hands over parses to `NaN` exactly when the typed
text is not a valid floating-point number. -/
theorem parseFloatStr_numberInputValue (raw : String) :
    parseFloatStr (numberInputValue raw) = .nan ↔ isValidFloatingPointNumber raw = false := by
  unfold numberInputValue
  by_cases hv : isValidFloatingPointNumber raw = true
  · simp only [hv, if_true]
    constructor
    · intro hn
      have h1 := (parseFloatStr_nan_iff raw).1 hn
      have h2 := startsWithNumber_after_sign raw.toList (isValidUnsigned_startsWithNumber _ hv)
      unfold startsNumeric at h1
      simp only [] at h1
      rw [h2, Bool.or_true] at h1
      exact absurd h1 (by decide)
    · intro hf; simp at hf
  · have hv2 : isValidFloatingPointNumber raw = false := by simpa using hv
    simp only [hv2, Bool.false_eq_true, if_false]
    constructor
    · intro _; trivial
    · intro _; decide

/-! The list request (C1) -/

/-- C1: `getAllEntries` issues the list request; when its response has status
200 the whole collection becomes the response body and nothing else changes,
and when the status is anything else the state, and so the collection, is
exactly what it was. -/
theorem getAllEntries_replaces_on_200_only (s : State) (response : Response) :
    requestsOf (Op.issue .getAllEntries s) =
        [.get "http://localhost:8000/entries" [("reponseType", .str "json")]] ∧
    (response.status = 200 →
      perform .getAllEntries (.fulfilled response) s = { s with entries := response.data }) ∧
    (response.status ≠ 200 →
      perform .getAllEntries (.fulfilled response) s = s) := by
  refine ⟨rfl, ?_, ?_⟩
  · intro h
    simp [perform, Op.settle, Op.onFulfilled, Op.issue, getAllEntries, getAllEntries_then,
      execAll, exec, h]
  · intro h
    simp [perform, Op.settle, Op.onFulfilled, Op.issue, getAllEntries, getAllEntries_then,
      execAll, exec, h]

theorem getAllEntries_replaces_on_200_only_witness :
    (perform .getAllEntries (.fulfilled ⟨200, none⟩) State.initial
        = { State.initial with entries := none }) ∧
    (perform .getAllEntries (.fulfilled ⟨404, none⟩) State.initial = State.initial) :=
  ⟨(getAllEntries_replaces_on_200_only State.initial ⟨200, none⟩).2.1 rfl,
   (getAllEntries_replaces_on_200_only State.initial ⟨404, none⟩).2.2 (by decide)⟩

/-! The refresh flag (C2, C3) -/

/-- C2: an execution of the body that finds `refreshData` true performs
`setRefreshData(false)` and then the list request, in that order, and leaves
the flag false; one that finds it false does nothing; the execution that
follows any execution does nothing.  After the fulfilment with status 200 of a
mutating operation the flag is true, and any positive number of executions of
the body issues exactly one list request and ends with the flag false.  Over any sequence of events the list requests issued,
plus the flag still owed, never exceed the mounts plus the successful mutations
plus the flag owed at the start. -/
theorem render_clears_flag_then_fetches_once (s : State) :
    (s.refreshData = true →
      renderBody s =
        [.setRefreshData false,
         .request (.get "http://localhost:8000/entries" [("reponseType", .str "json")])] ∧
      (step s .render).refreshData = false) ∧
    (s.refreshData = false → renderBody s = [] ∧ step s .render = s) ∧
    renderBody (step s .render) = [] ∧
    (∀ (op : Op) (response : Response), op.isMutating = true → response.status = 200 →
      (step s (.settled op (.fulfilled response))).refreshData = true ∧
      ∀ n : Nat,
        fetchCount (step s (.settled op (.fulfilled response)))
          (List.replicate (n + 1) .render) = 1 ∧
        (stepAll (step s (.settled op (.fulfilled response)))
          (List.replicate (n + 1) .render)).refreshData = false) ∧
    (∀ es : List Event,
      fetchCount s es + flagCount (stepAll s es) ≤
        (es.filter Event.isMount).length + (es.filter Event.isMutationSuccess).length
          + flagCount s) := by
  refine ⟨?_, ?_, ?_, ?_, fun es => fetch_budget es s⟩
  · intro h
    simp [renderBody, getAllEntries, step, handle, execAll, exec, h]
  · intro h
    simp [renderBody, step, handle, execAll, h]
  · by_cases h : s.refreshData = true <;>
      simp [renderBody, getAllEntries, step, handle, execAll, exec, h]
  · intro op response hop h200
    have hset : (step s (.settled op (.fulfilled response))).refreshData = true := by
      cases op <;>
        simp_all [step, handle, Op.settle, Op.onFulfilled, Op.isMutating, addSingleEntry_then,
          changeSingleEntry_then, changeIngredientForEntry_then, deleteSingleEntry_then,
          execAll, exec]
    exact ⟨hset, fun n => render_once n _ hset⟩

theorem render_clears_flag_then_fetches_once_witness :
    (renderBody { State.initial with refreshData := true } =
        [.setRefreshData false,
         .request (.get "http://localhost:8000/entries" [("reponseType", .str "json")])]) ∧
    renderBody State.initial = [] ∧
    fetchCount (step State.initial (.settled .addSingleEntry (.fulfilled ⟨200, none⟩)))
      [.render, .render, .render] = 1 :=
  ⟨((render_clears_flag_then_fetches_once { State.initial with refreshData := true }).1 rfl).1,
   ((render_clears_flag_then_fetches_once State.initial).2.1 rfl).1,
   (((render_clears_flag_then_fetches_once State.initial).2.2.2.1 .addSingleEntry ⟨200, none⟩
      rfl rfl).2 2).1⟩

/-- C3: for each of the four mutating operations called with `refreshData`
false, the flag is true after the response is handled exactly when the status
of the response is 200; when the promise is rejected the flag stays false. -/
theorem mutation_sets_flag_iff_200 (op : Op) (s : State) (response : Response)
    (hop : op.isMutating = true) (hs : s.refreshData = false) :
    ((perform op (.fulfilled response) s).refreshData = true ↔ response.status = 200) ∧
    (perform op .rejected s).refreshData = false := by
  constructor
  · cases op <;>
      simp_all [perform, Op.settle, Op.onFulfilled, Op.issue, Op.isMutating, addSingleEntry,
        addSingleEntry_then, changeSingleEntry, changeSingleEntry_then,
        changeIngredientForEntry, changeIngredientForEntry_then, deleteSingleEntry,
        deleteSingleEntry_then, execAll, exec] <;>
      by_cases h : response.status = 200 <;> simp [h, execAll, exec, hs]
  · cases op <;>
      simp_all [perform, Op.settle, Op.issue, Op.isMutating, addSingleEntry, changeSingleEntry,
        changeIngredientForEntry, deleteSingleEntry, execAll, exec]

theorem mutation_sets_flag_iff_200_witness :
    (perform (.deleteSingleEntry (.nat 7)) (.fulfilled ⟨200, none⟩) State.initial).refreshData
        = true ∧
    ¬ (perform .changeSingleEntry (.fulfilled ⟨201, none⟩) State.initial).refreshData = true :=
  ⟨(mutation_sets_flag_iff_200 (.deleteSingleEntry (.nat 7)) State.initial ⟨200, none⟩
      rfl rfl).1.2 rfl,
   fun h => absurd ((mutation_sets_flag_iff_200 .changeSingleEntry State.initial ⟨201, none⟩
      rfl rfl).1.1 h) (by decide)⟩

/-! The create request (C4, C5) -/

/-- C4: `addSingleEntry` issues exactly one request, a POST to `/entry/create`
whose body has the four fields ingredients, dish, calories and fat, the first
three holding the values of the draft unchanged and fat holding `parseFloat` of
the fat of the draft; for the draft Salad / lettuce,tomato / 150 / "2.5" the
fat of the body is the number 2.5. -/
theorem addSingleEntry_posts_four_fields (s : State) :
    requestsOf (addSingleEntry s) =
      [.post "http://localhost:8000/entry/create"
        [("ingredients", .str s.newEntry.ingredients),
         ("dish", .str s.newEntry.dish),
         ("calories", s.newEntry.calories),
         ("fat", .num (parseFloat s.newEntry.fat))]] ∧
    requestsOf (addSingleEntry
        { State.initial with
          newEntry := { dish := "Salad", ingredients := "lettuce,tomato",
                        calories := .num (.fin 150), fat := .str "2.5" } }) =
      [.post "http://localhost:8000/entry/create"
        [("ingredients", .str "lettuce,tomato"),
         ("dish", .str "Salad"),
         ("calories", .num (.fin 150)),
         ("fat", .num (.fin (5 / 2)))]] := by
  refine ⟨rfl, ?_⟩
  simp [requestsOf, addSingleEntry, State.initial, parseFloat, parseFloatStr, takeSign,
    startsWith, takeFraction, takeExponent, isDecDigit, isStrWhiteSpace, digitsVal]
  norm_num

/-- C5: whatever text is typed into the fat field, the submission is not
blocked: typing it and pressing Add issues the one POST to `/entry/create`,
with fat the result of `parseFloat` on the value of the input.  When the typed
text is not numeric, the fat of the body is NaN; when it is numeric, it is
not NaN. -/
theorem addSingleEntry_sends_nan_for_non_numeric_fat (s : State) (raw : String) :
    requestsOf (logAll s [.typeFat (numberInputValue raw), .clickAdd]) =
      [.post "http://localhost:8000/entry/create"
        [("ingredients", .str s.newEntry.ingredients),
         ("dish", .str s.newEntry.dish),
         ("calories", s.newEntry.calories),
         ("fat", .num (parseFloatStr (numberInputValue raw)))]] ∧
    (isValidFloatingPointNumber raw = false →
      requestsOf (logAll s [.typeFat (numberInputValue raw), .clickAdd]) =
        [.post "http://localhost:8000/entry/create"
          [("ingredients", .str s.newEntry.ingredients),
           ("dish", .str s.newEntry.dish),
           ("calories", s.newEntry.calories),
           ("fat", .num .nan)]]) ∧
    (isValidFloatingPointNumber raw = true →
      parseFloatStr (numberInputValue raw) ≠ .nan) := by
  have hreq : requestsOf (logAll s [.typeFat (numberInputValue raw), .clickAdd]) =
      [.post "http://localhost:8000/entry/create"
        [("ingredients", .str s.newEntry.ingredients),
         ("dish", .str s.newEntry.dish),
         ("calories", s.newEntry.calories),
         ("fat", .num (parseFloatStr (numberInputValue raw)))]] := rfl
  refine ⟨hreq, ?_, ?_⟩
  · intro h
    rw [hreq, (parseFloatStr_numberInputValue raw).2 h]
  · intro h hn
    have h2 := (parseFloatStr_numberInputValue raw).1 hn
    rw [h] at h2
    exact absurd h2 (by decide)

theorem addSingleEntry_sends_nan_for_non_numeric_fat_witness :
    requestsOf (logAll State.initial [.typeFat (numberInputValue "12abc"), .clickAdd]) =
      [.post "http://localhost:8000/entry/create"
        [("ingredients", .str State.initial.newEntry.ingredients),
         ("dish", .str State.initial.newEntry.dish),
         ("calories", State.initial.newEntry.calories),
         ("fat", .num .nan)]] ∧
    parseFloatStr (numberInputValue "2.5") ≠ .nan :=
  ⟨(addSingleEntry_sends_nan_for_non_numeric_fat State.initial "12abc").2.1 (by decide),
   (addSingleEntry_sends_nan_for_non_numeric_fat State.initial "2.5").2.2 (by decide)⟩

/-! The two update requests and the delete request (C6, C7, C10) -/

/-- C6: `changeIngredientForEntry` issues exactly one request, a PUT to
`/ingredient/update/` followed by the id of the edit-ingredients target, whose
body has the single field ingredients holding the new ingredients text; so for
a target with any id and any typed text, and in particular for id 7. -/
theorem changeIngredientForEntry_puts_only_ingredients (s : State) (id : Ident)
    (text : String) :
    requestsOf (changeIngredientForEntry s) =
      [.put ("http://localhost:8000/ingredient/update/" ++ s.changeIngredient.id.toStr)
        [("ingredients", .str s.newIngredientName)]] ∧
    requestsOf (logAll s
        [.rowSetChangeIngredient { change := true, id := id }, .typeNewIngredient text,
         .clickChangeIngredient]) =
      [.put ("http://localhost:8000/ingredient/update/" ++ id.toStr)
        [("ingredients", .str text)]] ∧
    requestsOf (logAll s
        [.rowSetChangeIngredient { change := true, id := .nat 7 }, .typeNewIngredient text,
         .clickChangeIngredient]) =
      [.put "http://localhost:8000/ingredient/update/7" [("ingredients", .str text)]] := by
  refine ⟨rfl, rfl, ?_⟩
  rfl

/-- C7: `deleteSingleEntry(id)` issues the DELETE to `/entry/delete/` followed
by the id whatever the state, so whether or not the collection holds an entry
with that id; a response whose status is not 200, or a rejection, leaves the
state, and so the collection, unchanged. -/
theorem deleteSingleEntry_no_prevalidation (id : Ident) (s : State) (response : Response) :
    requestsOf (deleteSingleEntry id s) =
      [.delete ("http://localhost:8000/entry/delete/" ++ id.toStr) []] ∧
    (response.status ≠ 200 →
      perform (.deleteSingleEntry id) (.fulfilled response) s = s) ∧
    (perform (.deleteSingleEntry id) .rejected s = s) := by
  refine ⟨rfl, ?_, rfl⟩
  intro h
  simp [perform, Op.settle, Op.onFulfilled, Op.issue, deleteSingleEntry, deleteSingleEntry_then,
    execAll, exec, h]

theorem deleteSingleEntry_no_prevalidation_witness :
    requestsOf (deleteSingleEntry (.nat 9) State.initial) =
      [.delete "http://localhost:8000/entry/delete/9" []] ∧
    perform (.deleteSingleEntry (.nat 9)) (.fulfilled ⟨404, none⟩) State.initial
      = State.initial :=
  ⟨(deleteSingleEntry_no_prevalidation (.nat 9) State.initial ⟨404, none⟩).1,
   (deleteSingleEntry_no_prevalidation (.nat 9) State.initial ⟨404, none⟩).2.1 (by decide)⟩

/-- C10: `changeSingleEntry` issues exactly one request, a PUT to
`/entry/update/` followed by the id of the edit-entry target, whose body is the
shared draft as it stands, fat included without conversion; and after typing
into the add modal, cancelling it, opening the change-entry modal for entry 7
and submitting without typing, the body carries the values typed in the add
modal. -/
theorem changeSingleEntry_sends_shared_draft (s : State) :
    requestsOf (changeSingleEntry s) =
      [.put ("http://localhost:8000/entry/update/" ++ s.changeEntry.id.toStr)
        [("dish", .str s.newEntry.dish), ("ingredients", .str s.newEntry.ingredients),
         ("calories", s.newEntry.calories), ("fat", s.newEntry.fat)]] ∧
    requestsOf (logAll State.initial
        [.clickTrack, .typeDish "Salad", .typeIngredients "lettuce,tomato",
         .typeCalories "150", .typeFat "2.5", .cancelAdd,
         .rowSetChangeEntry { change := true, id := .nat 7 }, .clickChangeEntry]) =
      [.put "http://localhost:8000/entry/update/7"
        [("dish", .str "Salad"), ("ingredients", .str "lettuce,tomato"),
         ("calories", .str "150"), ("fat", .str "2.5")]] := by
  refine ⟨rfl, ?_⟩
  rfl

/-! Failure paths and the modal flags (C8) -/

/-- C8, as stated, fails: with the add modal open, `addSingleEntry` answered by
status 500 ends with the modal closed, so the state is not the state before the
call; `changeSingleEntry` and `changeIngredientForEntry` answered by status 500
likewise end with their target no longer active. -/
theorem failed_submission_still_closes_modal :
    (perform .addSingleEntry (.fulfilled ⟨500, none⟩)
        { State.initial with addNewEntry := true }).addNewEntry = false ∧
    perform .addSingleEntry (.fulfilled ⟨500, none⟩)
        { State.initial with addNewEntry := true }
      ≠ { State.initial with addNewEntry := true } ∧
    (perform .changeSingleEntry (.fulfilled ⟨500, none⟩)
        { State.initial with changeEntry := { change := true, id := .nat 7 } }).changeEntry
      = { change := false, id := .nat 7 } ∧
    (perform .changeIngredientForEntry (.fulfilled ⟨500, none⟩)
        { State.initial with
          changeIngredient := { change := true, id := .nat 7 } }).changeIngredient
      = { change := false, id := .nat 7 } := by
  refine ⟨rfl, ?_, rfl, rfl⟩
  intro h
  have h2 := congrArg State.addNewEntry h
  exact absurd h2 (by decide)

/-- C8, amended: for each of the five operations, when the response has a
status other than 200 or the promise is rejected, handling the outcome changes
nothing: the state is the one left by the call itself.  The call of
`getAllEntries` and of `deleteSingleEntry` leaves the state as it was; the call
of `addSingleEntry` sets `addNewEntry` to false, that of `changeSingleEntry`
sets `changeEntry.change` to false and that of `changeIngredientForEntry` sets
`changeIngredient.change` to false, each before the request is sent and
whatever its outcome, and nothing else changes. -/
theorem failure_changes_nothing_after_the_call (op : Op) (o : Outcome) (s : State)
    (h : ∀ response, o = .fulfilled response → response.status ≠ 200) :
    perform op o s = execAll (op.issue s) s ∧
    execAll (op.issue s) s =
      (match op with
       | .getAllEntries => s
       | .deleteSingleEntry _ => s
       | .addSingleEntry => { s with addNewEntry := false }
       | .changeSingleEntry => { s with changeEntry := { s.changeEntry with change := false } }
       | .changeIngredientForEntry =>
         { s with changeIngredient := { s.changeIngredient with change := false } }) := by
  constructor
  · cases o with
    | rejected => rfl
    | fulfilled response =>
      have h200 := h response rfl
      cases op <;>
        simp [perform, Op.settle, Op.onFulfilled, getAllEntries_then, addSingleEntry_then,
          changeSingleEntry_then, changeIngredientForEntry_then, deleteSingleEntry_then,
          execAll, exec, h200]
  · cases op <;> rfl

theorem failure_changes_nothing_after_the_call_witness :
    perform .getAllEntries (.fulfilled ⟨500, none⟩) State.initial = State.initial ∧
    perform .addSingleEntry (.fulfilled ⟨500, none⟩) { State.initial with addNewEntry := true }
      = State.initial :=
  ⟨((failure_changes_nothing_after_the_call .getAllEntries (.fulfilled ⟨500, none⟩)
      State.initial (by intro r hr; cases hr; decide)).1).trans
    (failure_changes_nothing_after_the_call .getAllEntries (.fulfilled ⟨500, none⟩)
      State.initial (by intro r hr; cases hr; decide)).2,
   ((failure_changes_nothing_after_the_call .addSingleEntry (.fulfilled ⟨500, none⟩)
      { State.initial with addNewEntry := true } (by intro r hr; cases hr; decide)).1).trans
    (failure_changes_nothing_after_the_call .addSingleEntry (.fulfilled ⟨500, none⟩)
      { State.initial with addNewEntry := true } (by intro r hr; cases hr; decide)).2⟩

/-! The shared draft (C9) -/

/-- C9, as stated, fails: with Salad typed into the draft, cancelling the add
modal, cancelling the change-entry modal, and a create or an update answered by
status 200 each leave Salad in the draft, which is therefore not the empty
draft. -/
theorem draft_survives_cancel_and_submit :
    (step { State.initial with newEntry := { Draft.empty with dish := "Salad" } }
        .cancelAdd).newEntry.dish = "Salad" ∧
    (step { State.initial with newEntry := { Draft.empty with dish := "Salad" } }
        .cancelChangeEntry).newEntry.dish = "Salad" ∧
    (perform .addSingleEntry (.fulfilled ⟨200, none⟩)
        { State.initial with newEntry := { Draft.empty with dish := "Salad" } }).newEntry.dish
      = "Salad" ∧
    (perform .changeSingleEntry (.fulfilled ⟨200, none⟩)
        { State.initial with newEntry := { Draft.empty with dish := "Salad" } }).newEntry.dish
      = "Salad" ∧
    Draft.empty.dish ≠ "Salad" := by
  refine ⟨rfl, rfl, rfl, rfl, by decide⟩

/-- C9, amended: the shared draft is never reset.  An event changes it only by
typing into one of the four fields, which overwrites that field; every other
event, among them cancelling or hiding either modal, submitting, and the
settlement of any request with any outcome, leaves the draft exactly as it
was, and so does a whole create or update submission with its outcome. -/
theorem draft_changes_only_by_typing (s : State) (e : Event) (o : Outcome) :
    (step s e).newEntry =
      (match e with
       | .typeDish v => { s.newEntry with dish := v }
       | .typeIngredients v => { s.newEntry with ingredients := v }
       | .typeCalories v => { s.newEntry with calories := .str v }
       | .typeFat v => { s.newEntry with fat := .str v }
       | _ => s.newEntry) ∧
    (perform .addSingleEntry o s).newEntry = s.newEntry ∧
    (perform .changeSingleEntry o s).newEntry = s.newEntry := by
  refine ⟨?_, ?_, ?_⟩
  · cases e with
    | settled op o2 =>
      cases o2 with
      | rejected => rfl
      | fulfilled r =>
        by_cases h : r.status = 200 <;> cases op <;>
          simp [step, handle, Op.settle, Op.onFulfilled, getAllEntries_then,
            addSingleEntry_then, changeSingleEntry_then, changeIngredientForEntry_then,
            deleteSingleEntry_then, execAll, exec, h]
    | render =>
      by_cases h : s.refreshData = true <;>
        simp [step, handle, renderBody, getAllEntries, execAll, exec, h]
    | _ => rfl
  · cases o with
    | rejected => rfl
    | fulfilled r =>
      by_cases h : r.status = 200 <;>
        simp [perform, Op.settle, Op.onFulfilled, Op.issue, addSingleEntry, addSingleEntry_then,
          execAll, exec, h]
  · cases o with
    | rejected => rfl
    | fulfilled r =>
      by_cases h : r.status = 200 <;>
        simp [perform, Op.settle, Op.onFulfilled, Op.issue, changeSingleEntry,
          changeSingleEntry_then, execAll, exec, h]

end Entries
